import Mathlib

set_option maxHeartbeats 1000000

/-!
Shallow embedding of the `setroot` crate (files `src/img.rs`, `src/err.rs`
and `src/lib.rs`) together with theorems settling the specification claims.

Machine integers are modelled as `Nat`; an explicit `% 2 ^ w` truncation is
inserted exactly where the source performs a narrowing `as` cast or where a
`u32` operation may exceed 32 bits.  Fallible code returns `Except`.
Interaction with the X server is modelled by explicit environments that
provide the reply of every request that the source waits on, and each
operation additionally returns the list of requests it sent, in order.
-/

namespace Setroot

/-- Errors of the crate (`src/err.rs`, enum `Error`).  X protocol and
connection errors are abstracted as a numeric code. -/
inductive VisualClass where
  | StaticGray
  | GrayScale
  | StaticColor
  | PseudoColor
  | TrueColor
  | DirectColor
  deriving Repr, DecidableEq

inductive Error where
  | Xcb : Nat → Error
  | BadScreenNumber : Int → Error
  | UnsupportedVisual : Nat → VisualClass → Error
  | CouldNotFindRootVisual : Nat → Error
  | ImageTooLarge : Nat → Nat → Error
  | BadBufferSize : Nat → Nat → Nat → Error
  deriving Repr, DecidableEq

/-- `err::ImageTooLarge` — standalone error struct carrying the original
32-bit dimensions. -/
structure ImageTooLarge where
  w : Nat
  h : Nat
  deriving Repr, DecidableEq

/-! ## `src/img.rs` -/

/-- `img::RgbShifts` — bit shift values for the red, green and blue
components in the `u32` colour description. -/
structure RgbShifts where
  r : Nat
  g : Nat
  b : Nat
  deriving Repr, DecidableEq

/-- `u32` left shift: Rust masks the shift amount to the type width and the
result is truncated to 32 bits. -/
def shl32 (x s : Nat) : Nat := (x <<< (s % 32)) % 2 ^ 32

/-- `impl Subpixel for u8`: `fn to_u8(self) -> u8 { self }`. -/
def u8_to_u8 (x : Nat) : Nat := x

/-- `impl Subpixel for u16`: `fn to_u8(self) -> u8 { (self >> 8) as u8 }`. -/
def u16_to_u8 (x : Nat) : Nat := (x >>> 8) % 2 ^ 8

/-- Model of an `f32` sample: either not-a-number, or an exact numeric
value modelled as a rational. -/
inductive F32 where
  | nan : F32
  | val : ℚ → F32

/-- Rust `f32::round`: nearest integer, ties rounded away from zero. -/
def rustRound (q : ℚ) : ℤ := if 0 ≤ q then ⌊q + 1 / 2⌋ else -⌊-q + 1 / 2⌋

/-- Rust `as u8` cast of a float value: saturating at the bounds. -/
def asU8 (z : ℤ) : Nat := (min 255 (max 0 z)).toNat

/-- `impl Subpixel for f32`:
`if !(self < 1.0) { 255 } else if self <= 0.0 { 0 } else
{ (self * 255.0).round() as u8 }` — the first branch also catches NaN,
whose comparisons are all false. -/
def f32_to_u8 : F32 → Nat
  | .nan => 255
  | .val q => if ¬q < 1 then 255 else if q ≤ 0 then 0 else asU8 (rustRound (q * 255))

/-- `RgbShifts::from_rgb`, generic over the subpixel type: each component is
reduced to 8 bits by the converter and shifted into place. -/
def RgbShifts.from_rgb {S : Type} (s : RgbShifts) (toU8 : S → Nat) (r g b : S) : Nat :=
  shl32 (toU8 r) s.r ||| shl32 (toU8 g) s.g ||| shl32 (toU8 b) s.b

/-- `RgbShifts::from_luma`: `u32::from(luma.to_u8()) * 0x0101_0101`.
The shift values of `self` are not consulted. -/
def RgbShifts.from_luma {S : Type} (_s : RgbShifts) (toU8 : S → Nat) (luma : S) : Nat :=
  (toU8 luma * 0x01010101) % 2 ^ 32

/-- `img::new_dimensions` — converts `(u32, u32)` dimensions to
`(u16, u16)`, failing with `ImageTooLarge` carrying the original values. -/
def new_dimensions (width height : Nat) : Except ImageTooLarge (Nat × Nat) :=
  if width < 2 ^ 16 ∧ height < 2 ^ 16 then .ok (width, height)
  else .error ⟨width, height⟩

/-- `img::InnerImage<S>` — validated dimensions plus the sample buffer. -/
structure InnerImage (S : Type) where
  dimensions : Nat × Nat
  data : List S

/-- `InnerImage::new` — validates the dimensions and that the buffer length
equals `width * height * channels`; on mismatch the error carries the byte
length `data.len() * size_of::<S>()`.  `sizeOfS` is `size_of::<S>()`. -/
def InnerImage.new {S : Type} (sizeOfS : Nat) (width height : Nat) (data : List S)
    (channels : Nat) : Except Error (InnerImage S) :=
  match new_dimensions width height with
  | .error e => .error (.ImageTooLarge e.w e.h)
  | .ok (w, h) =>
    if w * h * channels = data.length then .ok ⟨(w, h), data⟩
    else .error (.BadBufferSize (data.length * sizeOfS) w h)

/-- `img::RgbImage` (generated by `make_image_type!` with channels
`[r, g, b]`). -/
structure RgbImage (S : Type) where
  inner : InnerImage S

def RgbImage.new {S : Type} (sizeOfS : Nat) (width height : Nat) (data : List S) :
    Except Error (RgbImage S) :=
  (InnerImage.new sizeOfS width height data 3).map RgbImage.mk

/-- `img::RgbaImage` (channels `[r, g, b, _alpha]`). -/
structure RgbaImage (S : Type) where
  inner : InnerImage S

def RgbaImage.new {S : Type} (sizeOfS : Nat) (width height : Nat) (data : List S) :
    Except Error (RgbaImage S) :=
  (InnerImage.new sizeOfS width height data 4).map RgbaImage.mk

/-- `img::LumaImage` (channels `[y]`). -/
structure LumaImage (S : Type) where
  inner : InnerImage S

def LumaImage.new {S : Type} (sizeOfS : Nat) (width height : Nat) (data : List S) :
    Except Error (LumaImage S) :=
  (InnerImage.new sizeOfS width height data 1).map LumaImage.mk

/-- `img::LumaAImage` (channels `[y, _alpha]`). -/
structure LumaAImage (S : Type) where
  inner : InnerImage S

def LumaAImage.new {S : Type} (sizeOfS : Nat) (width height : Nat) (data : List S) :
    Except Error (LumaAImage S) :=
  (InnerImage.new sizeOfS width height data 2).map LumaAImage.mk

/-- Body of `RgbImage::into_x_buffer`: walk the sample buffer in chunks of
three samples and pack each chunk with `from_rgb`.  An incomplete trailing
chunk is dropped, matching `as_chunks` (the source asserts it is empty,
which holds for every buffer validated by `InnerImage::new`). -/
def rgb_x_words {S : Type} (toU8 : S → Nat) (s : RgbShifts) : List S → List Nat
  | r :: g :: b :: rest => s.from_rgb toU8 r g b :: rgb_x_words toU8 s rest
  | _ => []

/-- Body of `RgbaImage::into_x_buffer`: chunks of four samples; the alpha
sample is discarded. -/
def rgba_x_words {S : Type} (toU8 : S → Nat) (s : RgbShifts) : List S → List Nat
  | r :: g :: b :: _alpha :: rest => s.from_rgb toU8 r g b :: rgba_x_words toU8 s rest
  | _ => []

/-- Body of `LumaImage::into_x_buffer`: chunks of one sample. -/
def luma_x_words {S : Type} (toU8 : S → Nat) (s : RgbShifts) : List S → List Nat
  | y :: rest => s.from_luma toU8 y :: luma_x_words toU8 s rest
  | _ => []

/-- Body of `LumaAImage::into_x_buffer`: chunks of two samples; the alpha
sample is discarded. -/
def lumaA_x_words {S : Type} (toU8 : S → Nat) (s : RgbShifts) : List S → List Nat
  | y :: _alpha :: rest => s.from_luma toU8 y :: lumaA_x_words toU8 s rest
  | _ => []

def RgbImage.into_x_buffer {S : Type} (img : RgbImage S) (toU8 : S → Nat)
    (rgb_shifts : RgbShifts) : List Nat :=
  rgb_x_words toU8 rgb_shifts img.inner.data

def RgbaImage.into_x_buffer {S : Type} (img : RgbaImage S) (toU8 : S → Nat)
    (rgb_shifts : RgbShifts) : List Nat :=
  rgba_x_words toU8 rgb_shifts img.inner.data

def LumaImage.into_x_buffer {S : Type} (img : LumaImage S) (toU8 : S → Nat)
    (rgb_shifts : RgbShifts) : List Nat :=
  luma_x_words toU8 rgb_shifts img.inner.data

def LumaAImage.into_x_buffer {S : Type} (img : LumaAImage S) (toU8 : S → Nat)
    (rgb_shifts : RgbShifts) : List Nat :=
  lumaA_x_words toU8 rgb_shifts img.inner.data

/-- Little-endian byte decomposition of a 32-bit word; `XBuffer`'s
`AsRef<[u8]>` implementation is a byte-cast of the word vector, which on a
little-endian machine is the concatenation of these bytes. -/
def u32_le_bytes (x : Nat) : List Nat :=
  [x % 2 ^ 8, x / 2 ^ 8 % 2 ^ 8, x / 2 ^ 16 % 2 ^ 8, x / 2 ^ 24 % 2 ^ 8]

def xbuffer_le_bytes (words : List Nat) : List Nat :=
  (words.map u32_le_bytes).flatten

/-- Row-major flattening of a list of `(r, g, b)` pixels into the sample
buffer an RGB image stores. -/
def flatten3 {α : Type} : List (α × α × α) → List α
  | [] => []
  | (r, g, b) :: rest => r :: g :: b :: flatten3 rest

/-- Row-major flattening of `(r, g, b, alpha)` pixels. -/
def flatten4 {α : Type} : List (α × α × α × α) → List α
  | [] => []
  | (r, g, b, a) :: rest => r :: g :: b :: a :: flatten4 rest

/-- Row-major flattening of `(luma, alpha)` pixels. -/
def flatten2 {α : Type} : List (α × α) → List α
  | [] => []
  | (y, a) :: rest => y :: a :: flatten2 rest

/-! ## `src/lib.rs` -/

/-- `xcb::x::Visualtype` — the fields `get_rgb_shifts` reads. -/
structure VisualType where
  visual_id : Nat
  visual_class : VisualClass
  red_mask : Nat
  green_mask : Nat
  blue_mask : Nat
  deriving Repr, DecidableEq

/-- One entry of a screen's allowed-depths list. -/
structure Depth where
  depth : Nat
  visuals : List VisualType
  deriving Repr, DecidableEq

/-- `xcb::x::Screen` — the fields the crate reads. -/
structure Screen where
  root : Nat
  root_depth : Nat
  root_visual : Nat
  width_in_pixels : Nat
  height_in_pixels : Nat
  allowed_depths : List Depth
  deriving Repr, DecidableEq

def tzGo : Nat → Nat → Nat
  | 0, _ => 0
  | f + 1, y => if y % 2 = 1 then 0 else 1 + tzGo f (y / 2)

/-- `u32::trailing_zeros` (32 for the value 0). -/
def trailing_zeros (x : Nat) : Nat :=
  if x % 2 ^ 32 = 0 then 32 else tzGo 32 (x % 2 ^ 32)

/-- `RootPixmap::get_rgb_shifts`: find the root visual inside the
allowed-depths records matching the root depth, require a 24- or 32-bit
TrueColor visual, and return the trailing-zero counts of the three channel
masks as the shifts. -/
def get_rgb_shifts (scr : Screen) : Except Error (Nat × Nat × Nat) :=
  let scr_depth := scr.root_depth
  match ((scr.allowed_depths.filter fun d => d.depth == scr_depth).flatMap
      fun d => d.visuals).find? (fun vis => vis.visual_id == scr.root_visual) with
  | none => .error (.CouldNotFindRootVisual scr.root_visual)
  | some visual =>
    if visual.visual_class ≠ .TrueColor ∨ (scr.root_depth ≠ 24 ∧ scr.root_depth ≠ 32) then
      .error (.UnsupportedVisual scr_depth visual.visual_class)
    else
      .ok (trailing_zeros visual.red_mask, trailing_zeros visual.green_mask,
        trailing_zeros visual.blue_mask)

/-- The visual lookup as the specification words it: the allowed-depths
records whose depth matches the root depth, searched for the visual whose
identifier equals the root visual identifier. -/
def findRootVisualSpec (scr : Screen) : Option VisualType :=
  (scr.allowed_depths.flatMap fun d =>
    if d.depth = scr.root_depth then d.visuals else []).find?
    fun vis => vis.visual_id == scr.root_visual

/-- X requests sent by the crate, carrying the fields the source fills. -/
inductive Request where
  | CreatePixmap (depth pid root width height : Nat)
  | CreateGc (cid pid : Nat)
  | FreeGc (gc : Nat)
  | FreePixmap (pixmap : Nat)
  | InternAtom (only_if_exists : Bool) (name : String)
  | GetProperty (window property : Nat)
  | ChangeProperty (window property value : Nat)
  | KillClient (resource : Nat)
  | SetCloseDownMode
  | ChangeWindowAttributes (window pixmap : Nat)
  | ClearArea (window width height : Nat)
  deriving Repr, DecidableEq

/-- `RootPixmap` — owned pixmap and graphics context plus the discovered
shifts, bound to a screen. -/
structure RootPixmap where
  screen : Screen
  pixmap : Nat
  gc : Nat
  rgb_shifts : Nat × Nat × Nat
  deriving Repr, DecidableEq

/-- Environment for `RootPixmap::new`: ids produced by `generate_id` and
the replies of the two checked allocation requests. -/
structure ConnEnv where
  pixmap_id : Nat
  gc_id : Nat
  create_pixmap_reply : Except Nat Unit
  create_gc_reply : Except Nat Unit

/-- `RootPixmap::new` — discover the shifts, create the pixmap (checked),
create the graphics context (checked; on failure the pixmap is freed before
the error propagates). -/
def RootPixmap.new (conn : ConnEnv) (scr : Screen) :
    List Request × Except Error RootPixmap :=
  match get_rgb_shifts scr with
  | .error e => ([], .error e)
  | .ok rgb_shifts =>
    let pixmap := conn.pixmap_id
    let t1 := [Request.CreatePixmap scr.root_depth pixmap scr.root
      scr.width_in_pixels scr.height_in_pixels]
    match conn.create_pixmap_reply with
    | .error e => (t1, .error (.Xcb e))
    | .ok _ =>
      let gc := conn.gc_id
      let t2 := t1 ++ [Request.CreateGc gc pixmap]
      match conn.create_gc_reply with
      | .error e => (t2 ++ [Request.FreePixmap pixmap], .error (.Xcb e))
      | .ok _ => (t2, .ok ⟨scr, pixmap, gc, rgb_shifts⟩)

/-- `impl Drop for RootPixmap`: free the graphics context and the pixmap. -/
def RootPixmap.drop (self : RootPixmap) : List Request :=
  [Request.FreeGc self.gc, Request.FreePixmap self.pixmap]

/-- Reply of a `GetProperty` request. -/
structure PropReply where
  typ : Nat
  format : Nat
  length : Nat
  bytes_after : Nat
  value : List Nat
  deriving Repr, DecidableEq

/-- The predefined `PIXMAP` atom (`x::ATOM_PIXMAP`). -/
def ATOM_PIXMAP : Nat := 20

/-- Environment for `set_background`: replies of the requests the method
waits on.  An atom reply of 0 models `Atom::none()`. -/
structure ServerEnv where
  intern_reply : Bool → String → Except Nat Nat
  get_property_reply : Nat → Except Nat PropReply
  change_window_attributes_reply : Except Nat Unit

/-- `RootPixmap::clean_root_atom` — read the property; when the reply is a
well-formed single 32-bit `PIXMAP` value that is non-zero and differs from
`prev_killed`, send `KillClient` for it and record it. -/
def clean_root_atom (env : ServerEnv) (self : RootPixmap) (atom : Nat)
    (prev_killed : Option Nat) : List Request × Option Nat :=
  let t := [Request.GetProperty self.screen.root atom]
  match env.get_property_reply atom with
  | .error _ => (t, prev_killed)
  | .ok reply =>
    if reply.typ = ATOM_PIXMAP ∧ reply.format = 32 ∧ reply.length = 1 ∧
        reply.bytes_after = 0 then
      let pixmap_id := reply.value.headD 0
      if pixmap_id ≠ 0 ∧ some pixmap_id ≠ prev_killed then
        (t ++ [Request.KillClient pixmap_id], some pixmap_id)
      else (t, prev_killed)
    else (t, prev_killed)

/-- One iteration of the loop in `RootPixmap::set_root_atoms` for a single
property name.  The final `Bool` is false when the iteration hit an early
`return` (intern failure or atom creation yielding none), which aborts the
whole method. -/
def set_root_atoms_step (env : ServerEnv) (self : RootPixmap) (name : String)
    (killed : Option Nat) : List Request × Option Nat × Bool :=
  let t0 := [Request.InternAtom true name]
  match env.intern_reply true name with
  | .error _ => (t0, killed, false)
  | .ok atom =>
    if atom = 0 then
      let t1 := t0 ++ [Request.InternAtom false name]
      match env.intern_reply false name with
      | .error _ => (t1, killed, false)
      | .ok atom2 =>
        if atom2 = 0 then (t1, killed, false)
        else (t1 ++ [Request.ChangeProperty self.screen.root atom2 self.pixmap],
          killed, true)
    else
      let c := clean_root_atom env self atom killed
      (t0 ++ c.1 ++ [Request.ChangeProperty self.screen.root atom self.pixmap],
        c.2, true)

/-- `RootPixmap::set_root_atoms` — run the iteration for `_XROOTPMAP_ID`
and, unless it aborted, for `ESETROOT_PMAP_ID`, threading the `killed`
tracker through both. -/
def set_root_atoms (env : ServerEnv) (self : RootPixmap) :
    List Request × Option Nat :=
  let s1 := set_root_atoms_step env self "_XROOTPMAP_ID" none
  if s1.2.2 then
    let s2 := set_root_atoms_step env self "ESETROOT_PMAP_ID" s1.2.1
    (s1.1 ++ s2.1, s2.2.1)
  else (s1.1, s1.2.1)

/-- `RootPixmap::set_background` — update the atoms (errors ignored), kill
temporary clients, set the close-down mode, then reassign the root window's
background pixmap (the only checked request) and clear the root window. -/
def set_background (env : ServerEnv) (self : RootPixmap) :
    List Request × Except Error Unit :=
  let ta := (set_root_atoms env self).1
  let tb := ta ++ [Request.KillClient 0, Request.SetCloseDownMode]
  match env.change_window_attributes_reply with
  | .error e =>
    (tb ++ [Request.ChangeWindowAttributes self.screen.root self.pixmap],
      .error (.Xcb e))
  | .ok _ =>
    (tb ++ [Request.ChangeWindowAttributes self.screen.root self.pixmap,
      Request.ClearArea self.screen.root self.screen.width_in_pixels
        self.screen.height_in_pixels],
      .ok ())

/-- Atom ids used by the deterministic server model below. -/
def XROOTPMAP_ATOM : Nat := 1

def ESETROOT_ATOM : Nat := 2

/-- The two cooperation properties of the root window. -/
structure RootProps where
  xrootpmap : Option Nat
  esetroot : Option Nat
  deriving Repr, DecidableEq

/-- A deterministic server in which every request succeeds: both atoms
exist, and `GetProperty` reports each property as a single 32-bit `PIXMAP`
value when set and an empty reply otherwise. -/
def happyEnv (s : RootProps) : ServerEnv where
  intern_reply := fun _ name =>
    .ok (if name = "_XROOTPMAP_ID" then XROOTPMAP_ATOM else ESETROOT_ATOM)
  get_property_reply := fun atom =>
    match (if atom = XROOTPMAP_ATOM then s.xrootpmap
      else if atom = ESETROOT_ATOM then s.esetroot else none) with
    | some v => .ok ⟨ATOM_PIXMAP, 32, 1, 0, [v]⟩
    | none => .ok ⟨0, 0, 0, 0, []⟩
  change_window_attributes_reply := .ok ()

/-- Effect of a request on the two root properties. -/
def applyRequest (s : RootProps) : Request → RootProps
  | .ChangeProperty _ a v =>
    if a = XROOTPMAP_ATOM then { s with xrootpmap := some v }
    else if a = ESETROOT_ATOM then { s with esetroot := some v }
    else s
  | _ => s

def applyTrace (s : RootProps) (t : List Request) : RootProps :=
  t.foldl applyRequest s

/-- One installation pass of the cooperation protocol against the
deterministic server: the requests sent and the resulting property state. -/
def install (s : RootProps) (self : RootPixmap) : List Request × RootProps :=
  let t := (set_root_atoms (happyEnv s) self).1
  (t, applyTrace s t)

/-- `Display` — the connection is modelled by the list of screens its setup
reports. -/
structure Display where
  roots : List Screen
  screen_num : Int

/-- `Display::from_xcb` — `usize::try_from(screen_num)` succeeds exactly
for non-negative numbers. -/
def Display.from_xcb (roots : List Screen) (screen_num : Int) : Except Error Display :=
  if 0 ≤ screen_num then .ok ⟨roots, screen_num⟩
  else .error (.BadScreenNumber screen_num)

/-- `Display::default_screen` — the `screen_num`-th screen of the setup, or
`BadScreenNumber`. -/
def Display.default_screen (self : Display) : Except Error Screen :=
  match self.roots[self.screen_num.toNat]? with
  | some scr => .ok scr
  | none => .error (.BadScreenNumber self.screen_num)

/-- `Monitor` description returned by `Display::monitors`. -/
structure Monitor where
  name : Option String
  primary : Bool
  automatic : Bool
  x : Int
  y : Int
  width : Nat
  height : Nat
  width_in_millimeters : Nat
  height_in_millimeters : Nat
  deriving Repr, DecidableEq

/-- One monitor record of a RandR `GetMonitors` reply. -/
structure MonitorInfo where
  name_atom : Nat
  primary : Bool
  automatic : Bool
  x : Int
  y : Int
  width : Nat
  height : Nat
  width_in_millimeters : Nat
  height_in_millimeters : Nat

/-- `Display::get_atom_name` — name of an atom, `none` on error or when
the name is empty. -/
def get_atom_name (atom_names : Nat → Except Nat String) (atom : Nat) : Option String :=
  match atom_names atom with
  | .error _ => none
  | .ok name => if name.length ≠ 0 then some name else none

/-- `Display::monitors` — requires the default screen (for the root
window), then maps the RandR reply. -/
def Display.monitors (self : Display) (reply : Except Nat (List MonitorInfo))
    (atom_names : Nat → Except Nat String) : Except Error (List Monitor) := do
  let scr ← self.default_screen
  let _root := scr.root
  match reply with
  | .error e => .error (.Xcb e)
  | .ok mons => .ok (mons.map fun mon =>
    ⟨get_atom_name atom_names mon.name_atom, mon.primary, mon.automatic,
      mon.x, mon.y, mon.width, mon.height, mon.width_in_millimeters,
      mon.height_in_millimeters⟩)

/-- `Display::root_pixmap` — `RootPixmap::new` on the default screen. -/
def Display.root_pixmap (self : Display) (conn : ConnEnv) : Except Error RootPixmap := do
  let scr ← self.default_screen
  (RootPixmap.new conn scr).2

/-- Resource ids of the `KillClient` requests of a trace, in order. -/
def killsOf (t : List Request) : List Nat :=
  t.filterMap fun req =>
    match req with
    | .KillClient k => some k
    | _ => none

/-! ## Theorems -/

theorem mem_killsOf (t : List Request) (k : Nat) :
    k ∈ killsOf t ↔ Request.KillClient k ∈ t := by
  simp only [killsOf, List.mem_filterMap]
  constructor
  · rintro ⟨a, ha, hf⟩
    cases a <;> simp_all
  · intro h
    exact ⟨Request.KillClient k, h, rfl⟩

/-- Claim C5: the component converters are total and reduce every source
sample to 8 bits: a `u8` is returned unchanged; a `u16` yields its most
significant byte; an `f32` yields 255 when NaN or at least 1.0, 0 when at
most 0.0, and `round(value * 255.0)` otherwise; the listed concrete
mappings hold. -/
theorem claim_c5_component_converters :
    (∀ x : Nat, x < 2 ^ 8 → u8_to_u8 x = x) ∧
    (∀ x : Nat, x < 2 ^ 16 → u16_to_u8 x = x / 2 ^ 8) ∧
    f32_to_u8 .nan = 255 ∧
    (∀ q : ℚ, 1 ≤ q → f32_to_u8 (.val q) = 255) ∧
    (∀ q : ℚ, q ≤ 0 → f32_to_u8 (.val q) = 0) ∧
    (∀ q : ℚ, 0 < q → q < 1 →
      (f32_to_u8 (.val q) : ℤ) = rustRound (q * 255)) ∧
    u16_to_u8 0xFFFF = 0xFF ∧ u16_to_u8 0x00FF = 0x00 ∧ u16_to_u8 0x1234 = 0x12 ∧
    f32_to_u8 (.val (3 / 2)) = 255 ∧ f32_to_u8 (.val (-1)) = 0 ∧
    f32_to_u8 (.val (1 / 2)) = 128 ∧ f32_to_u8 (.val 1) = 255 ∧
    f32_to_u8 (.val 0) = 0 := by
  refine ⟨fun x _ => rfl, fun x hx => ?_, rfl, fun q hq => ?_, fun q hq => ?_,
    fun q hq0 hq1 => ?_, by decide, by decide, by decide,
    by norm_num [f32_to_u8], by norm_num [f32_to_u8], ?_,
    by norm_num [f32_to_u8], by norm_num [f32_to_u8]⟩
  · show (x >>> 8) % 2 ^ 8 = x / 2 ^ 8
    rw [Nat.shiftRight_eq_div_pow]
    omega
  · show (if ¬q < 1 then 255 else _) = 255
    rw [if_pos (not_lt.mpr hq)]
  · show (if ¬q < 1 then _ else if q ≤ 0 then 0 else _) = 0
    rw [if_neg (not_not_intro (lt_of_le_of_lt hq zero_lt_one)), if_pos hq]
  · show ((if ¬q < 1 then 255 else if q ≤ 0 then 0
      else asU8 (rustRound (q * 255)) : Nat) : ℤ) = rustRound (q * 255)
    rw [if_neg (not_not_intro hq1), if_neg (not_le.mpr hq0)]
    have hnn : (0 : ℚ) ≤ q * 255 := by positivity
    have hround : rustRound (q * 255) = ⌊q * 255 + 1 / 2⌋ := if_pos hnn
    have h0 : 0 ≤ ⌊q * 255 + 1 / 2⌋ := Int.floor_nonneg.mpr (by positivity)
    have h255 : ⌊q * 255 + 1 / 2⌋ < 256 := by
      rw [Int.floor_lt]
      have : q * 255 < 1 * 255 := by
        exact mul_lt_mul_of_pos_right hq1 (by norm_num)
      push_cast
      linarith
    rw [hround]
    unfold asU8
    rw [max_eq_right h0, min_eq_right (by omega), Int.toNat_of_nonneg h0]
  · have h : ⌊(1 : ℚ) / 2 * 255 + 1 / 2⌋ = 128 := by
      rw [show (1 : ℚ) / 2 * 255 + 1 / 2 = ((128 : ℤ) : ℚ) by norm_num]
      exact Int.floor_intCast 128
    norm_num [f32_to_u8, rustRound, asU8, h]
    decide

/-- Claim C6: device-buffer conversion walks the sample buffer in
fixed-size pixel groups (1 for luma, 2 for luma+alpha, 3 for RGB, 4 for
RGBA), discards alpha samples, and produces exactly one word per pixel in
row-major order; the 2×1 RGB example with samples `[1,2,3,4,5,6]` and
shifts `(16,8,0)` yields the words `0x00010203` and `0x00040506` with
little-endian byte layouts `[3,2,1,0]` and `[6,5,4,0]`. -/
theorem claim_c6_device_buffer_conversion :
    (∀ (S : Type) (toU8 : S → Nat) (s : RgbShifts) (ps : List (S × S × S)),
      rgb_x_words toU8 s (flatten3 ps) =
        ps.map fun p => s.from_rgb toU8 p.1 p.2.1 p.2.2) ∧
    (∀ (S : Type) (toU8 : S → Nat) (s : RgbShifts) (ps : List (S × S × S × S)),
      rgba_x_words toU8 s (flatten4 ps) =
        ps.map fun p => s.from_rgb toU8 p.1 p.2.1 p.2.2.1) ∧
    (∀ (S : Type) (toU8 : S → Nat) (s : RgbShifts) (ys : List S),
      luma_x_words toU8 s ys = ys.map fun y => s.from_luma toU8 y) ∧
    (∀ (S : Type) (toU8 : S → Nat) (s : RgbShifts) (ps : List (S × S)),
      lumaA_x_words toU8 s (flatten2 ps) = ps.map fun p => s.from_luma toU8 p.1) ∧
    (∀ (S : Type) (ps : List (S × S × S)), (flatten3 ps).length = 3 * ps.length) ∧
    (∀ (S : Type) (ps : List (S × S × S × S)), (flatten4 ps).length = 4 * ps.length) ∧
    (∀ (S : Type) (ps : List (S × S)), (flatten2 ps).length = 2 * ps.length) ∧
    (RgbImage.new 1 2 1 [1, 2, 3, 4, 5, 6]).map
      (fun img => img.into_x_buffer u8_to_u8 ⟨16, 8, 0⟩) =
      .ok [0x00010203, 0x00040506] ∧
    rgb_x_words u8_to_u8 ⟨16, 8, 0⟩ [1, 2, 3, 4, 5, 6] =
      [0x00010203, 0x00040506] ∧
    xbuffer_le_bytes [0x00010203, 0x00040506] = [3, 2, 1, 0, 6, 5, 4, 0] := by
  refine ⟨fun S toU8 s ps => ?_, fun S toU8 s ps => ?_, fun S toU8 s ys => ?_,
    fun S toU8 s ps => ?_, fun S ps => ?_, fun S ps => ?_, fun S ps => ?_,
    by rfl, by decide, by decide⟩
  · induction ps with
    | nil => rfl
    | cons p rest ih => obtain ⟨r, g, b⟩ := p; simp [flatten3, rgb_x_words, ih]
  · induction ps with
    | nil => rfl
    | cons p rest ih => obtain ⟨r, g, b, a⟩ := p; simp [flatten4, rgba_x_words, ih]
  · induction ys with
    | nil => rfl
    | cons y rest ih => simp [luma_x_words, ih]
  · induction ps with
    | nil => rfl
    | cons p rest ih => obtain ⟨y, a⟩ := p; simp [flatten2, lumaA_x_words, ih]
  · induction ps with
    | nil => rfl
    | cons p rest ih => obtain ⟨r, g, b⟩ := p; simp [flatten3, ih]; ring
  · induction ps with
    | nil => rfl
    | cons p rest ih => obtain ⟨r, g, b, a⟩ := p; simp [flatten4, ih]; ring
  · induction ps with
    | nil => rfl
    | cons p rest ih => obtain ⟨y, a⟩ := p; simp [flatten2, ih]; ring

/-- Claim C7: image construction fails with `ImageTooLarge` (carrying the
original 32-bit dimensions) when a dimension exceeds 16 bits, fails with
`BadBufferSize` (carrying the buffer's byte length and the declared
dimensions) when the buffer length is not `width * height * channels`, and
otherwise succeeds storing the buffer unchanged; a 2×2 RGB image needs
exactly 12 samples, failing for 11 and 13. -/
theorem claim_c7_image_source_validation :
    (∀ (S : Type) (sizeOfS width height channels : Nat) (data : List S),
      (¬(width < 2 ^ 16 ∧ height < 2 ^ 16) →
        InnerImage.new sizeOfS width height data channels =
          .error (.ImageTooLarge width height)) ∧
      (width < 2 ^ 16 → height < 2 ^ 16 →
        width * height * channels ≠ data.length →
        InnerImage.new sizeOfS width height data channels =
          .error (.BadBufferSize (data.length * sizeOfS) width height)) ∧
      (width < 2 ^ 16 → height < 2 ^ 16 →
        width * height * channels = data.length →
        InnerImage.new sizeOfS width height data channels =
          .ok ⟨(width, height), data⟩)) ∧
    RgbImage.new 1 2 2 (List.replicate 11 (0 : Nat)) =
      .error (.BadBufferSize 11 2 2) ∧
    RgbImage.new 1 2 2 (List.replicate 13 (0 : Nat)) =
      .error (.BadBufferSize 13 2 2) ∧
    RgbImage.new 1 2 2 (List.replicate 12 (0 : Nat)) =
      .ok ⟨⟨(2, 2), List.replicate 12 0⟩⟩ := by
  refine ⟨fun S sizeOfS width height channels data => ⟨?_, ?_, ?_⟩, by rfl, by rfl, by rfl⟩
  · intro h
    unfold InnerImage.new new_dimensions
    rw [if_neg h]
  · intro h1 h2 hne
    unfold InnerImage.new new_dimensions
    rw [if_pos ⟨h1, h2⟩]
    simp [hne]
  · intro h1 h2 heq
    unfold InnerImage.new new_dimensions
    rw [if_pos ⟨h1, h2⟩]
    simp [heq]

theorem claim_c5_component_converters_witness :
    u8_to_u8 7 = 7 ∧ u16_to_u8 0xABCD = 0xABCD / 2 ^ 8 ∧
    f32_to_u8 (.val 2) = 255 ∧ f32_to_u8 (.val (-3)) = 0 ∧
    (f32_to_u8 (.val (1 / 4)) : ℤ) = rustRound ((1 / 4 : ℚ) * 255) :=
  ⟨claim_c5_component_converters.1 7 (by norm_num),
    claim_c5_component_converters.2.1 0xABCD (by norm_num),
    claim_c5_component_converters.2.2.2.1 2 (by norm_num),
    claim_c5_component_converters.2.2.2.2.1 (-3) (by norm_num),
    claim_c5_component_converters.2.2.2.2.2.1 (1 / 4) (by norm_num) (by norm_num)⟩

theorem claim_c7_image_source_validation_witness :
    InnerImage.new 1 70000 100 ([] : List Nat) 3 =
      .error (.ImageTooLarge 70000 100) ∧
    InnerImage.new 1 2 2 (List.replicate 11 (0 : Nat)) 3 =
      .error (.BadBufferSize 11 2 2) ∧
    InnerImage.new 1 2 2 (List.replicate 12 (0 : Nat)) 3 =
      .ok ⟨(2, 2), List.replicate 12 0⟩ :=
  ⟨(claim_c7_image_source_validation.1 Nat 1 70000 100 3 []).1 (by norm_num),
    (claim_c7_image_source_validation.1 Nat 1 2 2 3
      (List.replicate 11 0)).2.1 (by norm_num) (by norm_num) (by simp),
    (claim_c7_image_source_validation.1 Nat 1 2 2 3
      (List.replicate 12 0)).2.2 (by norm_num) (by norm_num) (by simp)⟩

theorem shl32_eq {x : Nat} (s : Nat) (hx : x < 2 ^ 8) (hs : s ≤ 24) :
    shl32 x s = x <<< s := by
  unfold shl32
  have h1 : s % 32 = s := Nat.mod_eq_of_lt (by omega)
  rw [h1, Nat.shiftLeft_eq, Nat.mod_eq_of_lt]
  calc x * 2 ^ s ≤ 255 * 2 ^ 24 :=
        Nat.mul_le_mul (by omega) (Nat.pow_le_pow_right (by norm_num) hs)
    _ < 2 ^ 32 := by norm_num

theorem pack3_asc (a b c i j k : Nat) (ha : a < 2 ^ 8) (hb : b < 2 ^ 8)
    (hc : c < 2 ^ 8) (h1 : i + 8 ≤ j) (h2 : j + 8 ≤ k) :
    a <<< i ||| b <<< j ||| c <<< k = a * 2 ^ i + b * 2 ^ j + c * 2 ^ k := by
  have hab : a * 2 ^ i < 2 ^ j := by
    calc a * 2 ^ i < 2 ^ 8 * 2 ^ i :=
          mul_lt_mul_of_pos_right ha (Nat.pos_pow_of_pos _ (by norm_num))
      _ = 2 ^ (i + 8) := by rw [← Nat.pow_add, Nat.add_comm]
      _ ≤ 2 ^ j := Nat.pow_le_pow_right (by norm_num) h1
  have habj : b * 2 ^ j + a * 2 ^ i < 2 ^ k := by
    calc b * 2 ^ j + a * 2 ^ i < b * 2 ^ j + 2 ^ j := by omega
      _ ≤ (2 ^ 8 - 1) * 2 ^ j + 2 ^ j := by
          have := Nat.mul_le_mul_right (2 ^ j) (show b ≤ 2 ^ 8 - 1 by omega)
          omega
      _ ≤ 2 ^ (j + 8) := by rw [Nat.pow_add]; ring_nf; omega
      _ ≤ 2 ^ k := Nat.pow_le_pow_right (by norm_num) h2
  rw [Nat.shiftLeft_eq, Nat.shiftLeft_eq, Nat.shiftLeft_eq]
  have e1 : a * 2 ^ i ||| b * 2 ^ j = b * 2 ^ j + a * 2 ^ i := by
    rw [Nat.or_comm, Nat.mul_comm b (2 ^ j)]
    exact (Nat.mul_add_lt_is_or hab b).symm
  rw [e1]
  rw [Nat.or_comm, Nat.mul_comm c (2 ^ k)]
  rw [← Nat.mul_add_lt_is_or habj c]
  ring

theorem pack3_acb (a b c i j k : Nat) (ha : a < 2 ^ 8) (hb : b < 2 ^ 8)
    (hc : c < 2 ^ 8) (h1 : i + 8 ≤ k) (h2 : k + 8 ≤ j) :
    a <<< i ||| b <<< j ||| c <<< k = a * 2 ^ i + b * 2 ^ j + c * 2 ^ k := by
  have h := pack3_asc a c b i k j ha hc hb h1 h2
  calc a <<< i ||| b <<< j ||| c <<< k = a <<< i ||| c <<< k ||| b <<< j := by
        ac_rfl
    _ = a * 2 ^ i + c * 2 ^ k + b * 2 ^ j := h
    _ = a * 2 ^ i + b * 2 ^ j + c * 2 ^ k := by ring

theorem pack3_bac (a b c i j k : Nat) (ha : a < 2 ^ 8) (hb : b < 2 ^ 8)
    (hc : c < 2 ^ 8) (h1 : j + 8 ≤ i) (h2 : i + 8 ≤ k) :
    a <<< i ||| b <<< j ||| c <<< k = a * 2 ^ i + b * 2 ^ j + c * 2 ^ k := by
  have h := pack3_asc b a c j i k hb ha hc h1 h2
  calc a <<< i ||| b <<< j ||| c <<< k = b <<< j ||| a <<< i ||| c <<< k := by
        ac_rfl
    _ = b * 2 ^ j + a * 2 ^ i + c * 2 ^ k := h
    _ = a * 2 ^ i + b * 2 ^ j + c * 2 ^ k := by ring

theorem pack3_bca (a b c i j k : Nat) (ha : a < 2 ^ 8) (hb : b < 2 ^ 8)
    (hc : c < 2 ^ 8) (h1 : j + 8 ≤ k) (h2 : k + 8 ≤ i) :
    a <<< i ||| b <<< j ||| c <<< k = a * 2 ^ i + b * 2 ^ j + c * 2 ^ k := by
  have h := pack3_asc b c a j k i hb hc ha h1 h2
  calc a <<< i ||| b <<< j ||| c <<< k = b <<< j ||| c <<< k ||| a <<< i := by
        ac_rfl
    _ = b * 2 ^ j + c * 2 ^ k + a * 2 ^ i := h
    _ = a * 2 ^ i + b * 2 ^ j + c * 2 ^ k := by ring

theorem pack3_cab (a b c i j k : Nat) (ha : a < 2 ^ 8) (hb : b < 2 ^ 8)
    (hc : c < 2 ^ 8) (h1 : k + 8 ≤ i) (h2 : i + 8 ≤ j) :
    a <<< i ||| b <<< j ||| c <<< k = a * 2 ^ i + b * 2 ^ j + c * 2 ^ k := by
  have h := pack3_asc c a b k i j hc ha hb h1 h2
  calc a <<< i ||| b <<< j ||| c <<< k = c <<< k ||| a <<< i ||| b <<< j := by
        ac_rfl
    _ = c * 2 ^ k + a * 2 ^ i + b * 2 ^ j := h
    _ = a * 2 ^ i + b * 2 ^ j + c * 2 ^ k := by ring

theorem pack3_cba (a b c i j k : Nat) (ha : a < 2 ^ 8) (hb : b < 2 ^ 8)
    (hc : c < 2 ^ 8) (h1 : k + 8 ≤ j) (h2 : j + 8 ≤ i) :
    a <<< i ||| b <<< j ||| c <<< k = a * 2 ^ i + b * 2 ^ j + c * 2 ^ k := by
  have h := pack3_asc c b a k j i hc hb ha h1 h2
  calc a <<< i ||| b <<< j ||| c <<< k = c <<< k ||| b <<< j ||| a <<< i := by
        ac_rfl
    _ = c * 2 ^ k + b * 2 ^ j + a * 2 ^ i := h
    _ = a * 2 ^ i + b * 2 ^ j + c * 2 ^ k := by ring

/-- Packing and lane-extraction facts for three 8-bit components placed at
three distinct byte lanes of a 32-bit word. -/
theorem lanes_sum_facts (i j k r g b : Nat) (hr : r < 2 ^ 8) (hg : g < 2 ^ 8)
    (hb : b < 2 ^ 8)
    (hi : i = 0 ∨ i = 8 ∨ i = 16 ∨ i = 24)
    (hj : j = 0 ∨ j = 8 ∨ j = 16 ∨ j = 24)
    (hk : k = 0 ∨ k = 8 ∨ k = 16 ∨ k = 24)
    (hij : i ≠ j) (hik : i ≠ k) (hjk : j ≠ k) :
    (r <<< i ||| g <<< j ||| b <<< k = r * 2 ^ i + g * 2 ^ j + b * 2 ^ k) ∧
    (r * 2 ^ i + g * 2 ^ j + b * 2 ^ k) / 2 ^ i % 2 ^ 8 = r ∧
    (r * 2 ^ i + g * 2 ^ j + b * 2 ^ k) / 2 ^ j % 2 ^ 8 = g ∧
    (r * 2 ^ i + g * 2 ^ j + b * 2 ^ k) / 2 ^ k % 2 ^ 8 = b ∧
    r * 2 ^ i + g * 2 ^ j + b * 2 ^ k < 2 ^ 32 ∧
    (∀ m, (m = 0 ∨ m = 8 ∨ m = 16 ∨ m = 24) → m ≠ i → m ≠ j → m ≠ k →
      (r * 2 ^ i + g * 2 ^ j + b * 2 ^ k) / 2 ^ m % 2 ^ 8 = 0) := by
  rcases hi with rfl | rfl | rfl | rfl <;> rcases hj with rfl | rfl | rfl | rfl <;>
    rcases hk with rfl | rfl | rfl | rfl <;>
    first
    | exact absurd rfl hij
    | exact absurd rfl hik
    | exact absurd rfl hjk
    | refine ⟨?_, by omega, by omega, by omega, by omega,
        fun m hm h1 h2 h3 => by rcases hm with rfl | rfl | rfl | rfl <;> omega⟩ <;>
      first
      | exact pack3_asc r g b _ _ _ hr hg hb (by omega) (by omega)
      | exact pack3_acb r g b _ _ _ hr hg hb (by omega) (by omega)
      | exact pack3_bac r g b _ _ _ hr hg hb (by omega) (by omega)
      | exact pack3_bca r g b _ _ _ hr hg hb (by omega) (by omega)
      | exact pack3_cab r g b _ _ _ hr hg hb (by omega) (by omega)
      | exact pack3_cba r g b _ _ _ hr hg hb (by omega) (by omega)

/-- Claim C8: when the three shifts place the channels in disjoint byte
lanes, `from_rgb` equals `(r << shift_r) | (g << shift_g) | (b << shift_b)`,
each component occupies exactly its declared lane with no cross-channel bit
bleed, and the packed word does not overflow 32 bits. -/
theorem claim_c8_from_rgb_disjoint_lanes (s : RgbShifts) (r g b : Nat)
    (hr : r < 2 ^ 8) (hg : g < 2 ^ 8) (hb : b < 2 ^ 8)
    (hlr : s.r = 0 ∨ s.r = 8 ∨ s.r = 16 ∨ s.r = 24)
    (hlg : s.g = 0 ∨ s.g = 8 ∨ s.g = 16 ∨ s.g = 24)
    (hlb : s.b = 0 ∨ s.b = 8 ∨ s.b = 16 ∨ s.b = 24)
    (hrg : s.r ≠ s.g) (hrb : s.r ≠ s.b) (hgb : s.g ≠ s.b) :
    s.from_rgb u8_to_u8 r g b = r <<< s.r ||| g <<< s.g ||| b <<< s.b ∧
    s.from_rgb u8_to_u8 r g b = r * 2 ^ s.r + g * 2 ^ s.g + b * 2 ^ s.b ∧
    s.from_rgb u8_to_u8 r g b / 2 ^ s.r % 2 ^ 8 = r ∧
    s.from_rgb u8_to_u8 r g b / 2 ^ s.g % 2 ^ 8 = g ∧
    s.from_rgb u8_to_u8 r g b / 2 ^ s.b % 2 ^ 8 = b ∧
    s.from_rgb u8_to_u8 r g b < 2 ^ 32 := by
  have h24r : s.r ≤ 24 := by rcases hlr with h | h | h | h <;> omega
  have h24g : s.g ≤ 24 := by rcases hlg with h | h | h | h <;> omega
  have h24b : s.b ≤ 24 := by rcases hlb with h | h | h | h <;> omega
  have e1 : s.from_rgb u8_to_u8 r g b = r <<< s.r ||| g <<< s.g ||| b <<< s.b := by
    unfold RgbShifts.from_rgb u8_to_u8
    rw [shl32_eq s.r hr h24r, shl32_eq s.g hg h24g, shl32_eq s.b hb h24b]
  obtain ⟨e2, er, eg, eb, elt, _⟩ :=
    lanes_sum_facts s.r s.g s.b r g b hr hg hb hlr hlg hlb hrg hrb hgb
  refine ⟨e1, e1.trans e2, ?_, ?_, ?_, ?_⟩
  · rw [e1.trans e2]; exact er
  · rw [e1.trans e2]; exact eg
  · rw [e1.trans e2]; exact eb
  · rw [e1.trans e2]; exact elt

theorem claim_c8_from_rgb_disjoint_lanes_witness :
    (RgbShifts.mk 16 8 0).from_rgb u8_to_u8 0x80 0x40 0x01 =
      0x80 * 2 ^ 16 + 0x40 * 2 ^ 8 + 0x01 * 2 ^ 0 ∧
    (RgbShifts.mk 16 8 0).from_rgb u8_to_u8 0x80 0x40 0x01 / 2 ^ 16 % 2 ^ 8 =
      0x80 :=
  ⟨(claim_c8_from_rgb_disjoint_lanes ⟨16, 8, 0⟩ 0x80 0x40 0x01 (by decide)
      (by decide) (by decide) (by decide) (by decide) (by decide) (by decide)
      (by decide) (by decide)).2.1,
    (claim_c8_from_rgb_disjoint_lanes ⟨16, 8, 0⟩ 0x80 0x40 0x01 (by decide)
      (by decide) (by decide) (by decide) (by decide) (by decide) (by decide)
      (by decide) (by decide)).2.2.1⟩

/-- Claim C9: `from_luma l` equals `l * 0x01010101`, replicating `l` into
all four byte lanes; it agrees with `from_rgb l l l` in the three channel
lanes and additionally fills the remaining fourth lane with `l`, where
`from_rgb` leaves 0. -/
theorem claim_c9_from_luma_replication (s : RgbShifts) (l : Nat)
    (hl : l < 2 ^ 8)
    (hlr : s.r = 0 ∨ s.r = 8 ∨ s.r = 16 ∨ s.r = 24)
    (hlg : s.g = 0 ∨ s.g = 8 ∨ s.g = 16 ∨ s.g = 24)
    (hlb : s.b = 0 ∨ s.b = 8 ∨ s.b = 16 ∨ s.b = 24)
    (hrg : s.r ≠ s.g) (hrb : s.r ≠ s.b) (hgb : s.g ≠ s.b) :
    s.from_luma u8_to_u8 l = l * 0x01010101 ∧
    (∀ m, (m = 0 ∨ m = 8 ∨ m = 16 ∨ m = 24) →
      s.from_luma u8_to_u8 l / 2 ^ m % 2 ^ 8 = l) ∧
    s.from_luma u8_to_u8 l / 2 ^ s.r % 2 ^ 8 =
      s.from_rgb u8_to_u8 l l l / 2 ^ s.r % 2 ^ 8 ∧
    s.from_luma u8_to_u8 l / 2 ^ s.g % 2 ^ 8 =
      s.from_rgb u8_to_u8 l l l / 2 ^ s.g % 2 ^ 8 ∧
    s.from_luma u8_to_u8 l / 2 ^ s.b % 2 ^ 8 =
      s.from_rgb u8_to_u8 l l l / 2 ^ s.b % 2 ^ 8 ∧
    (∀ m, (m = 0 ∨ m = 8 ∨ m = 16 ∨ m = 24) → m ≠ s.r → m ≠ s.g → m ≠ s.b →
      s.from_luma u8_to_u8 l / 2 ^ m % 2 ^ 8 = l ∧
      s.from_rgb u8_to_u8 l l l / 2 ^ m % 2 ^ 8 = 0) := by
  have e0 : s.from_luma u8_to_u8 l = l * 0x01010101 := by
    unfold RgbShifts.from_luma u8_to_u8
    exact Nat.mod_eq_of_lt (by omega)
  have lexr : ∀ m, (m = 0 ∨ m = 8 ∨ m = 16 ∨ m = 24) →
      l * 0x01010101 / 2 ^ m % 2 ^ 8 = l := by
    intro m hm
    rcases hm with rfl | rfl | rfl | rfl
    · rw [show l * 0x01010101 = l + 2 ^ 8 * (l + 2 ^ 8 * (l + 2 ^ 8 * l)) by ring,
        pow_zero, Nat.div_one, Nat.add_mul_mod_self_left, Nat.mod_eq_of_lt hl]
    · rw [show l * 0x01010101 = l + 2 ^ 8 * (l + 2 ^ 8 * (l + 2 ^ 8 * l)) by ring,
        Nat.add_mul_div_left _ _ (by norm_num : 0 < 2 ^ 8),
        Nat.div_eq_of_lt hl, Nat.zero_add, Nat.add_mul_mod_self_left,
        Nat.mod_eq_of_lt hl]
    · rw [show l * 0x01010101 = (l + 2 ^ 8 * l) + 2 ^ 16 * (l + 2 ^ 8 * l) by ring,
        Nat.add_mul_div_left _ _ (by norm_num : 0 < 2 ^ 16),
        Nat.div_eq_of_lt (by omega), Nat.zero_add, Nat.add_mul_mod_self_left,
        Nat.mod_eq_of_lt hl]
    · rw [show l * 0x01010101 = (l + 2 ^ 8 * l + 2 ^ 16 * l) + 2 ^ 24 * l by ring,
        Nat.add_mul_div_left _ _ (by norm_num : 0 < 2 ^ 24),
        Nat.div_eq_of_lt (by omega), Nat.zero_add, Nat.mod_eq_of_lt hl]
  have h24r : s.r ≤ 24 := by rcases hlr with h | h | h | h <;> omega
  have h24g : s.g ≤ 24 := by rcases hlg with h | h | h | h <;> omega
  have h24b : s.b ≤ 24 := by rcases hlb with h | h | h | h <;> omega
  have e1 : s.from_rgb u8_to_u8 l l l = l <<< s.r ||| l <<< s.g ||| l <<< s.b := by
    unfold RgbShifts.from_rgb u8_to_u8
    rw [shl32_eq s.r hl h24r, shl32_eq s.g hl h24g, shl32_eq s.b hl h24b]
  obtain ⟨e2, er, eg, eb, _, e4th⟩ :=
    lanes_sum_facts s.r s.g s.b l l l hl hl hl hlr hlg hlb hrg hrb hgb
  have efr : s.from_rgb u8_to_u8 l l l =
      l * 2 ^ s.r + l * 2 ^ s.g + l * 2 ^ s.b := e1.trans e2
  refine ⟨e0, fun m hm => by rw [e0]; exact lexr m hm, ?_, ?_, ?_,
    fun m hm h1 h2 h3 => ⟨by rw [e0]; exact lexr m hm,
      by rw [efr]; exact e4th m hm h1 h2 h3⟩⟩
  · rw [e0, efr, lexr s.r hlr]
    exact er.symm
  · rw [e0, efr, lexr s.g hlg]
    exact eg.symm
  · rw [e0, efr, lexr s.b hlb]
    exact eb.symm

theorem claim_c9_from_luma_replication_witness :
    (RgbShifts.mk 16 8 0).from_luma u8_to_u8 0x42 = 0x42424242 ∧
    (RgbShifts.mk 16 8 0).from_luma u8_to_u8 0x42 / 2 ^ 24 % 2 ^ 8 = 0x42 ∧
    (RgbShifts.mk 16 8 0).from_rgb u8_to_u8 0x42 0x42 0x42 / 2 ^ 24 % 2 ^ 8 = 0 :=
  ⟨(claim_c9_from_luma_replication ⟨16, 8, 0⟩ 0x42 (by decide) (by decide)
      (by decide) (by decide) (by decide) (by decide) (by decide)).1,
    ((claim_c9_from_luma_replication ⟨16, 8, 0⟩ 0x42 (by decide) (by decide)
      (by decide) (by decide) (by decide) (by decide) (by decide)).2.2.2.2.2 24
      (by decide) (by decide) (by decide) (by decide)).1,
    ((claim_c9_from_luma_replication ⟨16, 8, 0⟩ 0x42 (by decide) (by decide)
      (by decide) (by decide) (by decide) (by decide) (by decide)).2.2.2.2.2 24
      (by decide) (by decide) (by decide) (by decide)).2⟩

/-- A 24-bit TrueColor visual whose channel masks are single bits: its
masks are not contiguous 8-bit fields, so `mask >> trailing_zeros(mask)` is
not `0xFF`. -/
def c1Visual : VisualType := ⟨7, .TrueColor, 0x010000, 0x000100, 0x000001⟩

def c1Screen : Screen := ⟨1, 24, 7, 800, 600, [⟨24, [c1Visual]⟩]⟩

/-- Claim C1 counterexample: on a screen whose root visual is 24-bit
TrueColor with non-contiguous channel masks, the red mask right-shifted by
its trailing-zero count is not `0xFF`, yet visual discovery succeeds with
the trailing-zero shifts instead of failing with `UnsupportedVisual`: the
code performs no mask-contiguity verification. -/
theorem claim_c1_counterexample :
    c1Visual.visual_class = .TrueColor ∧ c1Screen.root_depth = 24 ∧
    c1Screen.root_visual = c1Visual.visual_id ∧
    c1Visual.red_mask >>> trailing_zeros c1Visual.red_mask ≠ 0xFF ∧
    get_rgb_shifts c1Screen = .ok (16, 8, 0) :=
  ⟨rfl, rfl, rfl, by decide, rfl⟩

theorem filter_flatMap_visuals (l : List Depth) (d0 : Nat) :
    (l.filter fun d => d.depth == d0).flatMap (fun d => d.visuals) =
      l.flatMap fun d => if d.depth = d0 then d.visuals else [] := by
  induction l with
  | nil => rfl
  | cons x xs ih =>
    by_cases h : x.depth = d0 <;>
      simp [List.filter_cons, beq_iff_eq, h, ih]

theorem get_rgb_shifts_scrutinee (scr : Screen) :
    ((scr.allowed_depths.filter fun d => d.depth == scr.root_depth).flatMap
      fun d => d.visuals).find? (fun vis => vis.visual_id == scr.root_visual) =
      findRootVisualSpec scr := by
  unfold findRootVisualSpec
  rw [filter_flatMap_visuals]

/-- Claim C1 amended: visual discovery selects the allowed-depths records
matching the root depth, finds within them the visual whose identifier
equals the root visual identifier (failing with `CouldNotFindRootVisual` if
absent), fails with `UnsupportedVisual(depth, class)` unless the class is
TrueColor and the root depth is 24 or 32, and otherwise returns each
channel mask's trailing-zero count as that channel's shift without
verifying that the mask right-shifted by that count equals `0xFF`. -/
theorem claim_c1_amended (scr : Screen) :
    (findRootVisualSpec scr = none →
      get_rgb_shifts scr = .error (.CouldNotFindRootVisual scr.root_visual)) ∧
    ∀ vis, findRootVisualSpec scr = some vis →
      (vis.visual_class = .TrueColor ∧ (scr.root_depth = 24 ∨ scr.root_depth = 32) →
        get_rgb_shifts scr = .ok (trailing_zeros vis.red_mask,
          trailing_zeros vis.green_mask, trailing_zeros vis.blue_mask)) ∧
      (¬(vis.visual_class = .TrueColor ∧
          (scr.root_depth = 24 ∨ scr.root_depth = 32)) →
        get_rgb_shifts scr =
          .error (.UnsupportedVisual scr.root_depth vis.visual_class)) := by
  constructor
  · intro h
    simp only [get_rgb_shifts]
    rw [get_rgb_shifts_scrutinee scr, h]
  · intro vis h
    constructor
    · rintro ⟨hclass, hdepth⟩
      simp only [get_rgb_shifts]
      rw [get_rgb_shifts_scrutinee scr, h]
      dsimp only
      rw [if_neg (by push_neg; exact ⟨hclass, fun h24 => hdepth.resolve_left h24⟩)]
    · intro hn
      simp only [get_rgb_shifts]
      rw [get_rgb_shifts_scrutinee scr, h]
      dsimp only
      rw [if_pos (by tauto)]

/-- A well-behaved 24-bit TrueColor visual with contiguous channel masks. -/
def c1GoodVisual : VisualType := ⟨7, .TrueColor, 0xFF0000, 0x00FF00, 0x0000FF⟩

def c1GoodScreen : Screen := ⟨1, 24, 7, 800, 600, [⟨24, [c1GoodVisual]⟩]⟩

theorem claim_c1_amended_witness :
    get_rgb_shifts c1GoodScreen = .ok (16, 8, 0) :=
  (((claim_c1_amended c1GoodScreen).2 c1GoodVisual rfl).1 ⟨rfl, Or.inl rfl⟩).trans rfl

/-- Claim C2: `set_background` returns an error exactly when the final
`ChangeWindowAttributes` request fails (and then it is that request's
protocol error); the result does not depend on the replies to the atom
lookups and property reads, whose failures are ignored, and the requests
without a checked reply cannot produce an error at all. -/
theorem claim_c2_set_background_error_contract (env : ServerEnv)
    (self : RootPixmap) :
    ((set_background env self).2 = .ok () ↔
      env.change_window_attributes_reply = .ok ()) ∧
    (∀ e, (set_background env self).2 = .error (.Xcb e) ↔
      env.change_window_attributes_reply = .error e) ∧
    (∀ env2 : ServerEnv,
      env2.change_window_attributes_reply = env.change_window_attributes_reply →
      (set_background env2 self).2 = (set_background env self).2) := by
  refine ⟨?_, ?_, ?_⟩
  · cases henv : env.change_window_attributes_reply <;>
      simp [set_background, henv]
  · intro e
    cases henv : env.change_window_attributes_reply <;>
      simp [set_background, henv]
  · intro env2 h
    simp only [set_background]
    rw [h]
    cases env.change_window_attributes_reply <;> rfl

def c2Env : ServerEnv := ⟨fun _ _ => .error 0, fun _ => .error 0, .ok ()⟩

def c2EnvB : ServerEnv :=
  ⟨fun _ name => .ok (if name = "_XROOTPMAP_ID" then 1 else 2),
    fun _ => .error 3, .ok ()⟩

def c2Pixmap : RootPixmap := ⟨c1GoodScreen, 3, 4, (16, 8, 0)⟩

theorem claim_c2_set_background_error_contract_witness :
    (set_background c2EnvB c2Pixmap).2 = (set_background c2Env c2Pixmap).2 :=
  (claim_c2_set_background_error_contract c2Env c2Pixmap).2.2 c2EnvB rfl

/-- Claim C4: construction is atomic: on success both the pixmap and the
graphics context are allocated (and nothing freed); if the graphics-context
allocation fails after the pixmap succeeded, a free-pixmap request is
issued before the error is returned; earlier failures leave nothing
allocated; destruction releases both resources together. -/
theorem claim_c4_construction_atomicity (conn : ConnEnv) (scr : Screen) :
    (∀ rp t, RootPixmap.new conn scr = (t, .ok rp) →
      rp.pixmap = conn.pixmap_id ∧ rp.gc = conn.gc_id ∧
      Request.CreatePixmap scr.root_depth conn.pixmap_id scr.root
        scr.width_in_pixels scr.height_in_pixels ∈ t ∧
      Request.CreateGc conn.gc_id conn.pixmap_id ∈ t ∧
      (∀ p, Request.FreePixmap p ∉ t) ∧ (∀ q, Request.FreeGc q ∉ t)) ∧
    (∀ shifts e, get_rgb_shifts scr = .ok shifts →
      conn.create_pixmap_reply = .ok () → conn.create_gc_reply = .error e →
      RootPixmap.new conn scr =
        ([Request.CreatePixmap scr.root_depth conn.pixmap_id scr.root
            scr.width_in_pixels scr.height_in_pixels,
          Request.CreateGc conn.gc_id conn.pixmap_id,
          Request.FreePixmap conn.pixmap_id], .error (.Xcb e))) ∧
    (∀ shifts e, get_rgb_shifts scr = .ok shifts →
      conn.create_pixmap_reply = .error e →
      RootPixmap.new conn scr =
        ([Request.CreatePixmap scr.root_depth conn.pixmap_id scr.root
            scr.width_in_pixels scr.height_in_pixels], .error (.Xcb e))) ∧
    (∀ e, get_rgb_shifts scr = .error e →
      RootPixmap.new conn scr = ([], .error e)) ∧
    (∀ rp : RootPixmap, rp.drop =
      [Request.FreeGc rp.gc, Request.FreePixmap rp.pixmap]) := by
  refine ⟨?_, ?_, ?_, ?_, fun rp => rfl⟩
  · intro rp t h
    cases hg : get_rgb_shifts scr with
    | error e => simp [RootPixmap.new, hg] at h
    | ok shifts =>
      cases hp : conn.create_pixmap_reply with
      | error e => simp [RootPixmap.new, hg, hp] at h
      | ok u =>
        cases hc : conn.create_gc_reply with
        | error e => simp [RootPixmap.new, hg, hp, hc] at h
        | ok v =>
          simp [RootPixmap.new, hg, hp, hc] at h
          obtain ⟨ht, hrp⟩ := h
          subst ht
          simp [← hrp]
  · intro shifts e hg hp hc
    simp [RootPixmap.new, hg, hp, hc]
  · intro shifts e hg hp
    simp [RootPixmap.new, hg, hp]
  · intro e hg
    simp [RootPixmap.new, hg]

def c4FailConn : ConnEnv := ⟨10, 11, .ok (), .error 7⟩

theorem claim_c4_construction_atomicity_witness :
    RootPixmap.new c4FailConn c1GoodScreen =
      ([Request.CreatePixmap 24 10 1 800 600, Request.CreateGc 11 10,
        Request.FreePixmap 10], .error (.Xcb 7)) :=
  (claim_c4_construction_atomicity c4FailConn c1GoodScreen).2.1
    (16, 8, 0) 7 rfl rfl rfl

/-- Claim C10: construction rejects exactly the negative screen numbers
with `BadScreenNumber`; a non-negative number beyond the screen count is
accepted at construction and `BadScreenNumber` is first returned by
`default_screen`, and hence by `monitors` and `root_pixmap` which call
it. -/
theorem claim_c10_screen_number_validation (roots : List Screen) (num : Int) :
    (num < 0 → Display.from_xcb roots num = .error (.BadScreenNumber num)) ∧
    (0 ≤ num → Display.from_xcb roots num = .ok ⟨roots, num⟩) ∧
    (0 ≤ num → roots.length ≤ num.toNat →
      Display.default_screen ⟨roots, num⟩ = .error (.BadScreenNumber num) ∧
      (∀ reply atom_names, Display.monitors ⟨roots, num⟩ reply atom_names =
        .error (.BadScreenNumber num)) ∧
      (∀ conn, Display.root_pixmap ⟨roots, num⟩ conn =
        .error (.BadScreenNumber num))) := by
  refine ⟨fun h => ?_, fun h => ?_, fun h hlen => ?_⟩
  · unfold Display.from_xcb
    rw [if_neg (by omega)]
  · unfold Display.from_xcb
    rw [if_pos h]
  · have hnone : roots[num.toNat]? = none := List.getElem?_eq_none hlen
    have hds : Display.default_screen ⟨roots, num⟩ =
        .error (.BadScreenNumber num) := by
      simp [Display.default_screen, hnone]
    refine ⟨hds, fun reply atom_names => ?_, fun conn => ?_⟩
    · simp only [Display.monitors, hds]
      rfl
    · simp only [Display.root_pixmap, hds]
      rfl

theorem clean_root_atom_spec (env : ServerEnv) (self : RootPixmap) (atom : Nat)
    (prev : Option Nat) :
    clean_root_atom env self atom prev =
      ([Request.GetProperty self.screen.root atom], prev) ∨
    ∃ kk, kk ≠ 0 ∧ some kk ≠ prev ∧
      clean_root_atom env self atom prev =
        ([Request.GetProperty self.screen.root atom, Request.KillClient kk],
          some kk) := by
  unfold clean_root_atom
  cases env.get_property_reply atom with
  | error e => exact .inl rfl
  | ok reply =>
    dsimp only
    split_ifs with h1 h2
    · exact .inr ⟨reply.value.headD 0, h2.1, h2.2, rfl⟩
    · exact .inl rfl
    · exact .inl rfl

theorem set_root_atoms_step_spec (env : ServerEnv) (self : RootPixmap)
    (name : String) (killed : Option Nat) :
    ((set_root_atoms_step env self name killed).2.1 = killed ∧
      killsOf (set_root_atoms_step env self name killed).1 = []) ∨
    ∃ kk, kk ≠ 0 ∧ some kk ≠ killed ∧
      (set_root_atoms_step env self name killed).2.1 = some kk ∧
      killsOf (set_root_atoms_step env self name killed).1 = [kk] := by
  unfold set_root_atoms_step
  cases env.intern_reply true name with
  | error e => exact .inl ⟨rfl, rfl⟩
  | ok atom =>
    dsimp only
    split_ifs with h0
    · cases env.intern_reply false name with
      | error e => exact .inl ⟨rfl, rfl⟩
      | ok atom2 =>
        dsimp only
        split_ifs with h2
        · exact .inl ⟨rfl, rfl⟩
        · exact .inl ⟨rfl, rfl⟩
    · rcases clean_root_atom_spec env self atom killed with h | ⟨kk, hkk0, hkkp, h⟩
      · left
        rw [h]
        exact ⟨rfl, rfl⟩
      · right
        refine ⟨kk, hkk0, hkkp, by rw [h], by rw [h]; rfl⟩

theorem set_root_atoms_kills (env : ServerEnv) (self : RootPixmap) :
    killsOf (set_root_atoms env self).1 = [] ∨
    (∃ k1, k1 ≠ 0 ∧ killsOf (set_root_atoms env self).1 = [k1]) ∨
    (∃ k1 k2, k1 ≠ 0 ∧ k2 ≠ 0 ∧ k1 ≠ k2 ∧
      killsOf (set_root_atoms env self).1 = [k1, k2]) := by
  unfold set_root_atoms
  cases hflag : (set_root_atoms_step env self "_XROOTPMAP_ID" none).2.2 with
  | false =>
    rw [if_neg (by rw [hflag]; exact Bool.false_ne_true)]
    rcases set_root_atoms_step_spec env self "_XROOTPMAP_ID" none with
      ⟨_, ht1⟩ | ⟨k1, h10, _, _, ht1⟩
    · exact .inl ht1
    · exact .inr (.inl ⟨k1, h10, ht1⟩)
  | true =>
    rw [if_pos (by rw [hflag])]
    dsimp only
    rw [killsOf, List.filterMap_append]
    rcases set_root_atoms_step_spec env self "_XROOTPMAP_ID" none with
      ⟨hk1, ht1⟩ | ⟨k1, h10, _, hk1, ht1⟩
    · rw [killsOf] at ht1
      rw [ht1, hk1]
      rcases set_root_atoms_step_spec env self "ESETROOT_PMAP_ID" none with
        ⟨_, ht2⟩ | ⟨k2, h20, _, _, ht2⟩
      · rw [killsOf] at ht2
        rw [ht2]
        exact .inl rfl
      · rw [killsOf] at ht2
        rw [ht2]
        exact .inr (.inl ⟨k2, h20, rfl⟩)
    · rw [killsOf] at ht1
      rw [ht1, hk1]
      rcases set_root_atoms_step_spec env self "ESETROOT_PMAP_ID" (some k1) with
        ⟨_, ht2⟩ | ⟨k2, h20, hne, _, ht2⟩
      · rw [killsOf] at ht2
        rw [ht2]
        exact .inr (.inl ⟨k1, h10, rfl⟩)
      · rw [killsOf] at ht2
        rw [ht2]
        exact .inr (.inr ⟨k1, k2, h10, h20, fun he => hne (by rw [he]), rfl⟩)

theorem happy_clean (s : RootProps) (self : RootPixmap) (atom : Nat)
    (prev : Option Nat) (v : Nat)
    (hv : (if atom = XROOTPMAP_ATOM then s.xrootpmap
      else if atom = ESETROOT_ATOM then s.esetroot else none) = some v) :
    clean_root_atom (happyEnv s) self atom prev =
      if v ≠ 0 ∧ some v ≠ prev
      then ([Request.GetProperty self.screen.root atom, Request.KillClient v],
        some v)
      else ([Request.GetProperty self.screen.root atom], prev) := by
  unfold clean_root_atom happyEnv
  dsimp only
  rw [hv]
  dsimp only
  rw [if_pos ⟨rfl, rfl, rfl, rfl⟩]
  simp only [List.headD_cons, List.singleton_append]

theorem happy_step (s : RootProps) (self : RootPixmap) (name : String)
    (killed : Option Nat) (atom : Nat)
    (hatom : (if name = "_XROOTPMAP_ID" then XROOTPMAP_ATOM else ESETROOT_ATOM)
      = atom)
    (h0 : ¬atom = 0) :
    set_root_atoms_step (happyEnv s) self name killed =
      ([Request.InternAtom true name] ++
        (clean_root_atom (happyEnv s) self atom killed).1 ++
        [Request.ChangeProperty self.screen.root atom self.pixmap],
        (clean_root_atom (happyEnv s) self atom killed).2, true) := by
  unfold set_root_atoms_step
  conv_lhs => rw [show (happyEnv s).intern_reply true name = .ok atom by
    rw [← hatom]; rfl]
  dsimp only
  rw [if_neg h0]

theorem happy_pass (s : RootProps) (self : RootPixmap) :
    set_root_atoms (happyEnv s) self =
      (([Request.InternAtom true "_XROOTPMAP_ID"] ++
          (clean_root_atom (happyEnv s) self XROOTPMAP_ATOM none).1 ++
          [Request.ChangeProperty self.screen.root XROOTPMAP_ATOM self.pixmap]) ++
        ([Request.InternAtom true "ESETROOT_PMAP_ID"] ++
          (clean_root_atom (happyEnv s) self ESETROOT_ATOM
            (clean_root_atom (happyEnv s) self XROOTPMAP_ATOM none).2).1 ++
          [Request.ChangeProperty self.screen.root ESETROOT_ATOM self.pixmap]),
        (clean_root_atom (happyEnv s) self ESETROOT_ATOM
          (clean_root_atom (happyEnv s) self XROOTPMAP_ATOM none).2).2) := by
  unfold set_root_atoms
  rw [happy_step s self "_XROOTPMAP_ID" none XROOTPMAP_ATOM (by rfl) (by decide)]
  dsimp only
  rw [happy_step s self "ESETROOT_PMAP_ID" _ ESETROOT_ATOM (by rfl) (by decide)]
  rfl

theorem install_state (s : RootProps) (self : RootPixmap) :
    (install s self).2 = ⟨some self.pixmap, some self.pixmap⟩ := by
  unfold install
  rw [happy_pass]
  dsimp only
  rcases clean_root_atom_spec (happyEnv s) self XROOTPMAP_ATOM none with
    h1 | ⟨k1, _, _, h1⟩ <;> rw [h1] <;>
    [rcases clean_root_atom_spec (happyEnv s) self ESETROOT_ATOM none with
      h2 | ⟨k2, _, _, h2⟩;
     rcases clean_root_atom_spec (happyEnv s) self ESETROOT_ATOM (some k1) with
      h2 | ⟨k2, _, _, h2⟩] <;> rw [h2] <;> rfl

theorem second_pass_kills (self : RootPixmap) (hp : self.pixmap ≠ 0) :
    killsOf (install ⟨some self.pixmap, some self.pixmap⟩ self).1 =
      [self.pixmap] := by
  unfold install
  rw [happy_pass]
  dsimp only
  rw [happy_clean ⟨some self.pixmap, some self.pixmap⟩ self XROOTPMAP_ATOM none
      self.pixmap rfl,
    if_pos ⟨hp, by simp⟩]
  rw [happy_clean ⟨some self.pixmap, some self.pixmap⟩ self ESETROOT_ATOM
      (some self.pixmap) self.pixmap rfl,
    if_neg (by simp)]
  rfl

/-- Claim C3: within a single installation pass a kill-client request
targets only non-zero pixmap identifiers not already reclaimed in the same
pass — each identifier at most once even if both properties referenced
it — and installing the same pixmap identifier twice in sequence issues the
terminate request for it exactly once on the second call. -/
theorem claim_c3_kill_client_dedup :
    (∀ (env : ServerEnv) (self : RootPixmap) (k : Nat),
      (Request.KillClient k ∈ (set_root_atoms env self).1 ↔
        k ∈ killsOf (set_root_atoms env self).1) ∧
      (killsOf (set_root_atoms env self).1).count k ≤ 1 ∧
      (k ∈ killsOf (set_root_atoms env self).1 → k ≠ 0)) ∧
    (∀ (s : RootProps) (self : RootPixmap), self.pixmap ≠ 0 →
      killsOf (install (install s self).2 self).1 = [self.pixmap] ∧
      (killsOf (install (install s self).2 self).1).count self.pixmap = 1) := by
  constructor
  · intro env self k
    refine ⟨(mem_killsOf _ k).symm, ?_, ?_⟩
    · rcases set_root_atoms_kills env self with h | ⟨k1, _, h⟩ |
        ⟨k1, k2, _, _, hne, h⟩ <;> rw [h]
      · simp
      · by_cases hk : k = k1 <;> simp [List.count_cons, hk]
      · by_cases hk1 : k = k1 <;> by_cases hk2 : k = k2 <;>
          simp [List.count_cons, hk1, hk2] <;> omega
    · intro hk
      rcases set_root_atoms_kills env self with h | ⟨k1, h10, h⟩ |
        ⟨k1, k2, h10, h20, _, h⟩ <;> rw [h] at hk <;> simp at hk
      · omega
      · rcases hk with rfl | rfl <;> omega
  · intro s self hp
    rw [install_state s self]
    rw [second_pass_kills self hp]
    exact ⟨rfl, by simp⟩

def c3Pixmap : RootPixmap := ⟨c1GoodScreen, 5, 6, (16, 8, 0)⟩

theorem claim_c3_kill_client_dedup_witness :
    (killsOf (install (install ⟨none, none⟩ c3Pixmap).2 c3Pixmap).1 = [5] ∧
      (killsOf (install (install ⟨none, none⟩ c3Pixmap).2 c3Pixmap).1).count 5 = 1) ∧
    (9 : Nat) ≠ 0 :=
  ⟨claim_c3_kill_client_dedup.2 ⟨none, none⟩ c3Pixmap (by decide),
    (claim_c3_kill_client_dedup.1 (happyEnv ⟨some 9, some 9⟩) c3Pixmap 9).2.2
      (by decide)⟩

theorem claim_c10_screen_number_validation_witness :
    Display.from_xcb [] (-1) = .error (.BadScreenNumber (-1)) ∧
    Display.from_xcb [] 5 = .ok ⟨[], 5⟩ ∧
    Display.default_screen ⟨[], 5⟩ = .error (.BadScreenNumber 5) :=
  ⟨(claim_c10_screen_number_validation [] (-1)).1 (by norm_num),
    (claim_c10_screen_number_validation [] 5).2.1 (by norm_num),
    ((claim_c10_screen_number_validation [] 5).2.2 (by norm_num) (by simp)).1⟩

end Setroot
